import Mathlib

/-!
Shallow embedding of `src/app.py` (AI News Summarizer).

The program scrapes Hacker News title lines into headline records, extracts
article bodies behind a 200-character content gate, and summarizes them with
a transformer model, with Streamlit `cache_data` memoization at each stage.
Network transport, HTML parsing and model inference are external effects; we
embed each boundary as an explicit outcome value fed to the pure logic that
`app.py` performs on it, and model the `st.error` reporting channel as a list
of emitted messages.
-/

set_option autoImplicit false

namespace AiNews

/-- A headline record as appended by `get_hacker_news_headlines`:
`{"title": title, "link": href}`. -/
structure Headline where
  title : String
  link : String
  deriving DecidableEq, Repr

/-- An `<a>` element found inside a title line: its stripped visible text
(`link_tag.get_text(strip=True)`, always a string) and its `href` attribute
(`link_tag.get('href')`, `none` when the attribute is absent). -/
structure Anchor where
  text : String
  href : Option String
  deriving DecidableEq, Repr

/-- A `<span class="titleline">` element together with the first anchor found
inside it (`span_tag.find('a')`), if any. -/
structure TitleLine where
  anchor : Option Anchor
  deriving DecidableEq, Repr

/-- Outcome of the guarded body of `get_hacker_news_headlines`, i.e. of
`requests.get` + `raise_for_status` + `BeautifulSoup` parsing: either the
parsed sequence of title-line elements in document order, or a
`requests.exceptions.RequestException` (DNS, TLS, timeout, connection reset,
non-2xx status via `raise_for_status`), or any other exception raised while
scraping. -/
inductive FetchResult where
  | success (doc : List TitleLine)
  | requestError (msg : String)
  | otherError (msg : String)
  deriving DecidableEq, Repr

/-- Python's `s.startswith(p)`: the character sequence of `p` is a prefix of
the character sequence of `s`. -/
def pyStartswith (s p : String) : Bool :=
  p.data.isPrefixOf s.data

/-- The per-title-line step of the scraping loop in
`get_hacker_news_headlines` (lines 31-37 of `app.py`): take the first anchor;
emit `{"title": title, "link": href}` iff `title and href and
href.startswith('http')` (Python truthiness: non-empty strings, non-`None`
attribute). -/
def emittedRecord : TitleLine → Option Headline
  | ⟨none⟩ => none
  | ⟨some a⟩ =>
    match a.href with
    | none => none
    | some href =>
      if (a.text != "") && (href != "") && pyStartswith href "http"
      then some ⟨a.text, href⟩
      else none

/-- The scraping loop of `get_hacker_news_headlines`: one pass over the
title-line elements in document order, appending each emitted record. -/
def scrapeHeadlines (doc : List TitleLine) : List Headline :=
  doc.filterMap emittedRecord

/-- `get_hacker_news_headlines` (lines 20-44 of `app.py`): on success, the
scraped records and no report; on `RequestException` or any other exception,
an empty list plus the corresponding `st.error` report. Returns
`(headlines, reported st.error messages)`. -/
def get_hacker_news_headlines : FetchResult → List Headline × List String
  | .success doc => (scrapeHeadlines doc, [])
  | .requestError e => ([], ["Failed to fetch news headlines: " ++ e])
  | .otherError e => ([], ["An unexpected error occurred during headline scraping: " ++ e])

/-- Spec-side definition, for refinement comparison only (not from the
source): "an `href` beginning with an HTTP(S) scheme", read literally as the
URL starting with `http://` or `https://`. -/
def hasHttpScheme (h : String) : Bool :=
  pyStartswith h "http://" || pyStartswith h "https://"

/-- Outcome of `Article(url)` / `article.download()` / `article.parse()`
inside `get_article_content_newspaper`: either the parsed `article.text`, or
any exception raised during construction, download or parse. -/
inductive ArticleFetch where
  | success (text : String)
  | failure (msg : String)
  deriving DecidableEq, Repr

/-- `get_article_content_newspaper` (lines 48-60 of `app.py`): on a parsed
article, return `some article.text` iff `article.text and len(article.text) >
200`; otherwise, and on any exception, return `None`. -/
def get_article_content_newspaper : ArticleFetch → Option String
  | .success t => if (t != "") && (200 < t.length : Bool) then some t else none
  | .failure _ => none

/-- The keyword arguments `summarize_text` passes to the summarization
pipeline call (lines 69-76 of `app.py`). -/
structure ModelArgs where
  inputText : String
  max_length : Nat
  min_length : Nat
  do_sample : Bool
  truncation : Bool
  deriving DecidableEq, Repr

/-- The exact argument record built by `summarize_text text`:
`max_length=150, min_length=30, do_sample=False, truncation=True`. -/
def summarizeArgs (text : String) : ModelArgs :=
  { inputText := text
    max_length := 150
    min_length := 30
    do_sample := false
    truncation := true }

/-- Outcome of one `_summarizer(...)` invocation: `[0]['summary_text']` on
success, or any raised exception. -/
inductive ModelOutcome where
  | ok (summary_text : String)
  | exn (msg : String)
  deriving DecidableEq, Repr

/-- The fixed string `summarize_text` returns from its `except` branch. -/
def modelErrorMessage : String :=
  "Could not summarize this article due to an AI model error. The article might be too complex or too long for the model."

/-- Observable result of one `summarize_text` call: the returned display
string, the `st.error` messages emitted, and the model invocations performed
(in order, with their argument records) — the call-count instrumentation. -/
structure SummarizeOut where
  display : String
  reports : List String
  modelCalls : List ModelArgs
  deriving DecidableEq, Repr

/-- `summarize_text` (lines 64-82 of `app.py`), with the summarizer pipeline
abstracted as a function from argument records to invocation outcomes. The
body unconditionally invokes the model once on the full input (relying on
`truncation=True`); on success it returns the summary text, on an exception
it reports the detail via `st.error` and returns `modelErrorMessage`. -/
def summarize_text (s : ModelArgs → ModelOutcome) (text : String) : SummarizeOut :=
  match s (summarizeArgs text) with
  | .ok summary => ⟨summary, [], [summarizeArgs text]⟩
  | .exn e =>
      ⟨modelErrorMessage,
       ["AI summarization failed with an internal model error: " ++ e],
       [summarizeArgs text]⟩

/-- A summarizer whose call sites additionally receive a sampling seed: when
`do_sample` is true the output may depend on the seed; `do_sample=False`
makes the seed irrelevant (the determinism contract of the model boundary). -/
def seedModel (a : ModelArgs) (seed : Nat) : ModelOutcome :=
  if a.do_sample then ModelOutcome.ok (toString seed) else ModelOutcome.ok a.inputText

/-- Modelled from the spec: the no-TTL tier of `st.cache_data` that wraps
`summarize_text` (line 63 of `app.py`, no `ttl` argument — entries never
expire; the `_summarizer` parameter's leading underscore excludes it from the
key, so the key is the `text` argument alone). The cache is an association
list from input text to the cached display string. Returns the display
string, the updated cache, and the model invocations performed by this call.
-/
def summarizeCached (s : ModelArgs → ModelOutcome) (c : List (String × String))
    (text : String) : String × List (String × String) × List ModelArgs :=
  match c.lookup text with
  | some v => (v, c, [])
  | none =>
      let out := summarize_text s text
      (out.display, (text, out.display) :: c, out.modelCalls)

/-- Modelled from the spec: validity lookup of the TTL tier of
`st.cache_data` (§3 `CacheEntry`, §4.4 `ResultCache`). An entry `(key, v, t)`
is served at time `now` only when its age is below the TTL (`now < t + ttl`);
an older entry is logically absent. -/
def lookupValid {V : Type} (c : List (String × V × Nat)) (key : String)
    (ttl now : Nat) : Option V :=
  match c.lookup key with
  | some (v, t) => if now < t + ttl then some v else none
  | none => none

/-- Modelled from the spec: `get_or_compute(key, ttl, compute)` of §4.4,
the memoization performed by `@st.cache_data(ttl=3600)` on
`get_article_content_newspaper` and `get_hacker_news_headlines`. With a
still-valid entry it serves the cached value; otherwise it invokes `compute`
once and stores the result with the current timestamp. Returns `(value,
updated cache, number of compute invocations)`. -/
def get_or_compute {V : Type} (c : List (String × V × Nat)) (key : String)
    (ttl now : Nat) (compute : Unit → V) : V × List (String × V × Nat) × Nat :=
  match lookupValid c key ttl now with
  | some v => (v, c, 0)
  | none =>
      let v := compute ()
      (v, (key, v, now) :: c, 1)

/-- The orchestrator's selection of the first `n` headlines
(`headlines[:num_articles_to_display]`, line 132 of `app.py`). -/
def topHeadlines (headlines : List Headline) (n : Nat) : List Headline :=
  headlines.take n

/-! ## Helper lemmas -/

/-- A string that starts with `"http"` is in particular non-empty. -/
theorem ne_empty_of_startsWith_http {u : String} (h : pyStartswith u "http" = true) :
    u ≠ "" := by
  intro he
  subst he
  exact absurd h (by decide)

/-! ## Claims -/

/-- Claim C1: `get_article_content_newspaper` returns `some text` exactly when
download and parse succeed and the extracted text has length strictly greater
than 200 characters, and returns `none` otherwise — covering the boundary
case of exactly 200 characters, empty extracted text, and every
download/parse failure. -/
theorem extract_some_iff_length_gt_200 (r : ArticleFetch) (t : String) :
    get_article_content_newspaper r = some t ↔
      r = ArticleFetch.success t ∧ 200 < t.length := by
  cases r with
  | failure e => simp [get_article_content_newspaper]
  | success s =>
    simp only [get_article_content_newspaper, ArticleFetch.success.injEq]
    by_cases hc : ((s != "") && (decide (200 < s.length))) = true
    · rw [if_pos hc]
      simp only [Bool.and_eq_true, bne_iff_ne, ne_eq, decide_eq_true_eq] at hc
      simp only [Option.some.injEq]
      constructor
      · rintro rfl
        exact ⟨rfl, hc.2⟩
      · rintro ⟨rfl, _⟩
        rfl
    · rw [if_neg hc]
      simp only [Bool.and_eq_true, bne_iff_ne, ne_eq, decide_eq_true_eq] at hc
      constructor
      · intro hx
        exact absurd hx (by simp)
      · rintro ⟨rfl, hlen⟩
        refine absurd ⟨?_, hlen⟩ hc
        intro he
        subst he
        exact absurd hlen (by decide)

/-- Claim C2 (counterexample): on an input of exactly 50 characters,
`summarize_text` does not short-circuit: it invokes the model exactly once
and returns the model's summary, not an insufficient-content outcome. -/
theorem fifty_char_input_still_invokes_model :
    (String.mk (List.replicate 50 'a')).length = 50 ∧
    (summarize_text (fun _ => ModelOutcome.ok "stub summary")
        (String.mk (List.replicate 50 'a'))).modelCalls.length = 1 ∧
    (summarize_text (fun _ => ModelOutcome.ok "stub summary")
        (String.mk (List.replicate 50 'a'))).display = "stub summary" :=
  ⟨rfl, rfl, rfl⟩

/-- Claim C2 (amended): `summarize_text` performs no length check at all: on
every input, of any length, it invokes the model exactly once, on the full
input text, with `truncation=True` (the newer, truncate-and-attempt variant
of the spec's §9 discrepancy). -/
theorem summarize_always_invokes_model_once (s : ModelArgs → ModelOutcome) (text : String) :
    (summarize_text s text).modelCalls = [summarizeArgs text] ∧
    (summarizeArgs text).truncation = true := by
  refine ⟨?_, rfl⟩
  unfold summarize_text
  cases s (summarizeArgs text) <;> rfl

/-- Claim C4: every transport-level failure of the listing fetch
(`RequestException`, which covers DNS, TLS, timeout, connection reset and the
non-2xx statuses raised by `raise_for_status`) makes
`get_hacker_news_headlines` report the error and return an empty list — never
a partial list — and any other scraping-time failure likewise yields an empty
result plus a reported diagnostic. -/
theorem fetch_failure_yields_empty_and_report (e : String) :
    get_hacker_news_headlines (FetchResult.requestError e) =
      ([], ["Failed to fetch news headlines: " ++ e]) ∧
    get_hacker_news_headlines (FetchResult.otherError e) =
      ([], ["An unexpected error occurred during headline scraping: " ++ e]) :=
  ⟨rfl, rfl⟩

/-- Claim C5: for every `n` in `[1, 20]` and every available headline list,
`topHeadlines` returns exactly the first `min n available` records in their
original document order (it is a prefix of the available list of that
length). -/
theorem topHeadlines_first_min_n (hs : List Headline) (n : Nat)
    (_h1 : 1 ≤ n) (_h2 : n ≤ 20) :
    (topHeadlines hs n).length = min n hs.length ∧
    topHeadlines hs n <+: hs :=
  ⟨List.length_take n hs, List.take_prefix n hs⟩

/-- Witness for claim C5 at `n = 5` over a two-element headline list. -/
theorem topHeadlines_first_min_n_witness :
    (1 ≤ 5 ∧ 5 ≤ 20) ∧
    ((topHeadlines [⟨"A", "https://a.example"⟩, ⟨"B", "https://b.example"⟩] 5).length =
        min 5 ([⟨"A", "https://a.example"⟩, ⟨"B", "https://b.example"⟩] : List Headline).length ∧
      topHeadlines [⟨"A", "https://a.example"⟩, ⟨"B", "https://b.example"⟩] 5 <+:
        [⟨"A", "https://a.example"⟩, ⟨"B", "https://b.example"⟩]) :=
  ⟨⟨by decide, by decide⟩,
   topHeadlines_first_min_n [⟨"A", "https://a.example"⟩, ⟨"B", "https://b.example"⟩] 5
     (by decide) (by decide)⟩

/-- Claim C6: every model invocation fault raised inside `summarize_text` is
caught and converted to the model-error outcome: the fixed model-error
display string is returned, the fault's detail is preserved in the reported
`st.error` diagnostic, and the call still returns a value (the model is
invoked exactly once and no exception escapes). -/
theorem model_fault_caught_and_reported (s : ModelArgs → ModelOutcome)
    (text e : String) (h : s (summarizeArgs text) = ModelOutcome.exn e) :
    summarize_text s text =
      ⟨modelErrorMessage,
       ["AI summarization failed with an internal model error: " ++ e],
       [summarizeArgs text]⟩ := by
  unfold summarize_text
  rw [h]

/-- Witness for claim C6: a summarizer that raises an out-of-memory fault. -/
theorem model_fault_caught_and_reported_witness :
    summarize_text (fun _ => ModelOutcome.exn "CUDA out of memory") "some article text" =
      ⟨modelErrorMessage,
       ["AI summarization failed with an internal model error: " ++ "CUDA out of memory"],
       [summarizeArgs "some article text"]⟩ :=
  model_fault_caught_and_reported (fun _ => ModelOutcome.exn "CUDA out of memory")
    "some article text" "CUDA out of memory" rfl

/-- Claim C8: with sampling disabled, the summary is byte-identical across
calls. `summarize_text` passes `do_sample=False` in its argument record, so
for a model whose output is seed-independent whenever `do_sample` is false
(the determinism contract of the model boundary), two calls with identical
input text — even under different ambient sampling seeds — return identical
results. -/
theorem summarize_deterministic_do_sample_false (f : ModelArgs → Nat → ModelOutcome)
    (seed1 seed2 : Nat) (text : String)
    (h : ∀ (a : ModelArgs) (x y : Nat), a.do_sample = false → f a x = f a y) :
    summarize_text (fun a => f a seed1) text = summarize_text (fun a => f a seed2) text := by
  unfold summarize_text
  have hx : (fun a => f a seed1) (summarizeArgs text) =
      (fun a => f a seed2) (summarizeArgs text) :=
    h (summarizeArgs text) seed1 seed2 rfl
  rw [hx]

/-- Witness for claim C8 with the seed-sensitive `seedModel`. -/
theorem summarize_deterministic_witness :
    summarize_text (fun a => seedModel a 1) "abc" =
      summarize_text (fun a => seedModel a 2) "abc" :=
  summarize_deterministic_do_sample_false seedModel 1 2 "abc"
    (fun a x y hfalse => by simp [seedModel, hfalse])

/-- Claim C3 (counterexample): a title-line anchor whose `href` is
`httpfoo://evil.example/1` — a URL that does not begin with an HTTP(S)
scheme — is nevertheless emitted as a headline record, because the code
tests only the literal prefix `"http"`. -/
theorem headline_emitted_without_http_scheme :
    scrapeHeadlines [⟨some ⟨"Example entry", some "httpfoo://evil.example/1"⟩⟩] =
      [⟨"Example entry", "httpfoo://evil.example/1"⟩] ∧
    hasHttpScheme "httpfoo://evil.example/1" = false :=
  ⟨by decide, by decide⟩

/-- Claim C3 (amended): a headline record is emitted for a title-line anchor
exactly when the anchor has non-empty visible text and an `href` beginning
with the literal four characters `"http"` (a strict superset of the HTTP(S)
schemes); anchors failing either condition are silently skipped, the emitted
records appear in document order, and no sorting or deduplication is
performed (scraping distributes over concatenation of the document). -/
theorem headline_emitted_iff_text_and_literal_http :
    (∀ (t : TitleLine) (rec : Headline),
      emittedRecord t = some rec ↔
        ∃ a u, t.anchor = some a ∧ a.href = some u ∧
          a.text ≠ "" ∧ pyStartswith u "http" = true ∧ rec = ⟨a.text, u⟩) ∧
    (∀ d1 d2 : List TitleLine,
      scrapeHeadlines (d1 ++ d2) = scrapeHeadlines d1 ++ scrapeHeadlines d2) := by
  constructor
  · intro t rec
    obtain ⟨anc⟩ := t
    cases anc with
    | none => simp [emittedRecord]
    | some a =>
      obtain ⟨txt, hr⟩ := a
      cases hr with
      | none => simp [emittedRecord]
      | some u =>
        simp only [emittedRecord, Option.some.injEq]
        by_cases hc : ((txt != "") && (u != "") && pyStartswith u "http") = true
        · rw [if_pos hc]
          simp only [Bool.and_eq_true, bne_iff_ne, ne_eq] at hc
          simp only [Option.some.injEq]
          constructor
          · rintro rfl
            exact ⟨⟨txt, some u⟩, u, rfl, rfl, hc.1.1, hc.2, rfl⟩
          · rintro ⟨a', u', ha, hu, _, _, rfl⟩
            cases ha
            cases hu
            rfl
        · rw [if_neg hc]
          constructor
          · intro hx
            exact absurd hx (by simp)
          · rintro ⟨a', u', ha, hu, htxt, hhttp, rfl⟩
            cases ha
            cases hu
            refine absurd ?_ hc
            simp only [Bool.and_eq_true, bne_iff_ne, ne_eq]
            exact ⟨⟨htxt, ne_empty_of_startsWith_http hhttp⟩, hhttp⟩
  · intro d1 d2
    simp [scrapeHeadlines]

/-- Claim C7: the summarization cache tier is keyed by the input text alone
and has no expiry: starting from a cache with no entry for `text`, the first
`summarize_text` call invokes the model exactly once, and a second call with
byte-identical text — even through a different summarizer handle, which is
excluded from the key — performs no model invocation and returns the same
display string from the single cache entry. -/
theorem summary_cache_invokes_model_once (s1 s2 : ModelArgs → ModelOutcome)
    (c : List (String × String)) (text : String)
    (h : c.lookup text = none) :
    (summarizeCached s1 c text).2.2 = [summarizeArgs text] ∧
    (summarizeCached s2 (summarizeCached s1 c text).2.1 text).2.2 = [] ∧
    (summarizeCached s2 (summarizeCached s1 c text).2.1 text).1 =
      (summarizeCached s1 c text).1 := by
  have hcalls : (summarize_text s1 text).modelCalls = [summarizeArgs text] := by
    unfold summarize_text
    cases s1 (summarizeArgs text) <;> rfl
  have h1 : summarizeCached s1 c text =
      ((summarize_text s1 text).display,
       (text, (summarize_text s1 text).display) :: c,
       (summarize_text s1 text).modelCalls) := by
    unfold summarizeCached
    rw [h]
  have hl : List.lookup text ((text, (summarize_text s1 text).display) :: c) =
      some (summarize_text s1 text).display := by
    simp [List.lookup]
  refine ⟨?_, ?_, ?_⟩
  · rw [h1]
    exact hcalls
  · rw [h1]
    unfold summarizeCached
    rw [hl]
  · rw [h1]
    unfold summarizeCached
    rw [hl]

/-- Witness for claim C7: empty cache, two summarizer handles. -/
theorem summary_cache_invokes_model_once_witness :
    (summarizeCached (fun _ => ModelOutcome.ok "S") [] "same text").2.2 =
      [summarizeArgs "same text"] ∧
    (summarizeCached (fun _ => ModelOutcome.exn "boom")
        (summarizeCached (fun _ => ModelOutcome.ok "S") [] "same text").2.1 "same text").2.2 = [] ∧
    (summarizeCached (fun _ => ModelOutcome.exn "boom")
        (summarizeCached (fun _ => ModelOutcome.ok "S") [] "same text").2.1 "same text").1 =
      (summarizeCached (fun _ => ModelOutcome.ok "S") [] "same text").1 :=
  summary_cache_invokes_model_once (fun _ => ModelOutcome.ok "S")
    (fun _ => ModelOutcome.exn "boom") [] "same text" rfl

/-- Claim C9: `get_or_compute` with a still-valid entry serves it without
invoking `compute`; with an absent entry it invokes `compute` exactly once
and stores the result with a fresh timestamp; an entry older than its TTL is
never served (it is recomputed). In particular, calling the cached article
extraction twice for the same URL within the 3600-second TTL window returns
the identical `Option String` and performs no second computation. -/
theorem get_or_compute_cache_contract :
    (∀ (V : Type) (c : List (String × V × Nat)) (key : String) (ttl now : Nat)
        (compute : Unit → V),
      (∀ v, lookupValid c key ttl now = some v →
        get_or_compute c key ttl now compute = (v, c, 0)) ∧
      (lookupValid c key ttl now = none →
        get_or_compute c key ttl now compute =
          (compute (), (key, compute (), now) :: c, 1)) ∧
      (∀ v t, c.lookup key = some (v, t) → t + ttl ≤ now →
        get_or_compute c key ttl now compute =
          (compute (), (key, compute (), now) :: c, 1))) ∧
    (∀ (r : ArticleFetch) (c0 : List (String × Option String × Nat))
        (url : String) (now1 now2 : Nat),
      c0.lookup url = none → now2 < now1 + 3600 →
      (get_or_compute c0 url 3600 now1 (fun _ => get_article_content_newspaper r)).1 =
        get_article_content_newspaper r ∧
      (get_or_compute c0 url 3600 now1 (fun _ => get_article_content_newspaper r)).2.2 = 1 ∧
      (get_or_compute
          (get_or_compute c0 url 3600 now1 (fun _ => get_article_content_newspaper r)).2.1
          url 3600 now2 (fun _ => get_article_content_newspaper r)).1 =
        (get_or_compute c0 url 3600 now1 (fun _ => get_article_content_newspaper r)).1 ∧
      (get_or_compute
          (get_or_compute c0 url 3600 now1 (fun _ => get_article_content_newspaper r)).2.1
          url 3600 now2 (fun _ => get_article_content_newspaper r)).2.2 = 0) := by
  constructor
  · intro V c key ttl now compute
    refine ⟨?_, ?_, ?_⟩
    · intro v hv
      unfold get_or_compute
      rw [hv]
    · intro hn
      unfold get_or_compute
      rw [hn]
    · intro v t hl hle
      have hn : lookupValid c key ttl now = none := by
        unfold lookupValid
        rw [hl]
        exact if_neg (by omega)
      unfold get_or_compute
      rw [hn]
  · intro r c0 url now1 now2 h0 hlt
    have hv0 : lookupValid c0 url 3600 now1 = none := by
      unfold lookupValid
      rw [h0]
    have h1 : get_or_compute c0 url 3600 now1 (fun _ => get_article_content_newspaper r) =
        (get_article_content_newspaper r,
         (url, get_article_content_newspaper r, now1) :: c0, 1) := by
      unfold get_or_compute
      rw [hv0]
    have hv1 : lookupValid ((url, get_article_content_newspaper r, now1) :: c0)
        url 3600 now2 = some (get_article_content_newspaper r) := by
      unfold lookupValid
      have : List.lookup url ((url, get_article_content_newspaper r, now1) :: c0) =
          some (get_article_content_newspaper r, now1) := by
        simp [List.lookup]
      rw [this]
      exact if_pos hlt
    have h2 : get_or_compute ((url, get_article_content_newspaper r, now1) :: c0)
        url 3600 now2 (fun _ => get_article_content_newspaper r) =
        (get_article_content_newspaper r,
         (url, get_article_content_newspaper r, now1) :: c0, 0) := by
      unfold get_or_compute
      rw [hv1]
    rw [h1]
    exact ⟨rfl, rfl, by rw [h2], by rw [h2]⟩

/-- Witness for claim C9: a valid entry is served without recomputation, and
a cold extraction for a failing URL computes exactly once. -/
theorem get_or_compute_cache_contract_witness :
    get_or_compute [("k", 7, 10)] "k" 100 50 (fun _ => 9) = (7, [("k", 7, 10)], 0) ∧
    (get_or_compute [] "https://example.com/a" 3600 1000
        (fun _ => get_article_content_newspaper (ArticleFetch.failure "timeout"))).2.2 = 1 :=
  ⟨(get_or_compute_cache_contract.1 Nat [("k", 7, 10)] "k" 100 50 (fun _ => 9)).1 7 (by decide),
   ((get_or_compute_cache_contract.2 (ArticleFetch.failure "timeout") []
       "https://example.com/a" 1000 1001 rfl (by decide)).2).1⟩

/-- Claim C10: the headline link filter is a literal string-prefix test: an
anchor with non-empty text is accepted exactly when its `href` string begins
with the four characters `"http"`, so an `href` with a non-HTTP(S) scheme
whose name merely starts with `"http"` also passes, while a relative link
such as a site-internal item link is excluded. -/
theorem link_filter_is_literal_http_prefix_test :
    (∀ a : Anchor, a.text ≠ "" →
      ((emittedRecord ⟨some a⟩).isSome = true ↔
        ∃ u, a.href = some u ∧ pyStartswith u "http" = true)) ∧
    emittedRecord ⟨some ⟨"Launch post", some "httpstreamz://feed/1"⟩⟩ =
      some ⟨"Launch post", "httpstreamz://feed/1"⟩ ∧
    hasHttpScheme "httpstreamz://feed/1" = false ∧
    emittedRecord ⟨some ⟨"Ask HN: question", some "item?id=42424242"⟩⟩ = none := by
  refine ⟨?_, by decide, by decide, by decide⟩
  intro a htxt
  obtain ⟨txt, hr⟩ := a
  simp only at htxt
  cases hr with
  | none => simp [emittedRecord]
  | some u =>
    simp only [emittedRecord, Option.some.injEq]
    by_cases hc : ((txt != "") && (u != "") && pyStartswith u "http") = true
    · rw [if_pos hc]
      simp only [Bool.and_eq_true, bne_iff_ne, ne_eq] at hc
      exact iff_of_true rfl ⟨u, rfl, hc.2⟩
    · rw [if_neg hc]
      refine iff_of_false (by simp) ?_
      rintro ⟨u', hu, hhttp⟩
      cases hu
      refine absurd ?_ hc
      simp only [Bool.and_eq_true, bne_iff_ne, ne_eq]
      exact ⟨⟨htxt, ne_empty_of_startsWith_http hhttp⟩, hhttp⟩

/-- Witness for claim C10: a concrete anchor with non-empty text and an
absolute `http://` link satisfies the acceptance equivalence. -/
theorem link_filter_literal_http_witness :
    (emittedRecord ⟨some ⟨"Title", some "http://x.example/"⟩⟩).isSome = true ↔
      ∃ u, (Anchor.mk "Title" (some "http://x.example/")).href = some u ∧
        pyStartswith u "http" = true :=
  link_filter_is_literal_http_prefix_test.1 ⟨"Title", some "http://x.example/"⟩ (by decide)

end AiNews
